import Mathlib

/-!
Shallow embedding of the HTTP/HTTP3 server of `transport/http/http3.go`
(package `http` of the blink-io/kratos repository), together with the
configuration options of the same file and the route walking, request
pipeline and lifecycle operations the specification describes.

Effectful operations (binding listeners, the blocking serve loops, backend
close/shutdown) are modelled by explicit state passing over a `World` that
carries the network oracle: the outcome of the k-th `net.Listen` /
`quic.ListenAddrEarly` call is an arbitrary function supplied by the
environment, and the number of listen calls made so far is recorded so that
re-binding is observable.
-/

namespace Kratos

/-- A bound network address (`net.Addr`): host and port of a listener. -/
structure Addr where
  host : String
  port : Nat
deriving DecidableEq, Repr

/-- `net.Listener` as far as the server inspects it: its bound address. -/
structure NetListener where
  addr : Addr
deriving DecidableEq, Repr

/-- `http3.QUICEarlyListener` as far as the server inspects it: its bound address. -/
structure QUICEarlyListener where
  addr : Addr
deriving DecidableEq, Repr

/-- Go `error` values as the server distinguishes them: the sentinel
`http.ErrServerClosed`, a wrapping error (traversed by `errors.Is`), and
plain message errors (`errors.New`, library errors). -/
inductive GoError where
  | errServerClosed : GoError
  | wrap : GoError → GoError
  | msg : String → GoError
deriving DecidableEq, Repr

/-- `errors.Is e target`: `e` equals `target` or wraps an error that does. -/
def GoError.is : GoError → GoError → Bool
  | .errServerClosed, t => GoError.errServerClosed == t
  | .msg s, t => GoError.msg s == t
  | .wrap e, t => (GoError.wrap e == t) || GoError.is e t

/-- The error built by `errors.New("[HTTP3], TLS is required")` in `startHTTP3`. -/
def tlsRequiredError : GoError := .msg "[HTTP3], TLS is required"

/-- `*tls.Config`: opaque certificate material; the server only inspects
presence/absence, but an identifier keeps distinct configs distinct. -/
structure TLSConf where
  id : Nat := 0
deriving DecidableEq, Repr

/-- `*url.URL` as the server builds and compares it: scheme and host:port. -/
structure URL where
  scheme : String
  host : String
deriving DecidableEq, Repr

/-- `url.URL.String()` for the URLs the server produces. -/
def URL.toString (u : URL) : String := u.scheme ++ "://" ++ u.host

/-- References to `http.Handler` values, as identities: the process-global
`http.DefaultServeMux`, the server's filter-chain-wrapped router (the
handler installed on the selected backend), mux's built-in not-found and
method-not-allowed fallbacks, and user-registered handlers. -/
inductive HandlerRef where
  | defaultServeMux : HandlerRef
  | wrappedRouter : HandlerRef
  | builtinNotFound : HandlerRef
  | builtinMethodNotAllowed : HandlerRef
  | user : Nat → HandlerRef
deriving DecidableEq, Repr

/-- Names for the decode/encode hook fields of `Server`; the defaults are the
package-level functions `NewServer` installs. Their behaviour is opaque to
every claim, only their identity is carried. -/
inductive HookRef where
  | defaultRequestVars : HookRef
  | defaultRequestQuery : HookRef
  | defaultRequestDecoder : HookRef
  | defaultResponseEncoder : HookRef
  | defaultErrorEncoder : HookRef
  | customHook : Nat → HookRef
deriving DecidableEq, Repr

/-- A registered `mux.Route`. `pathTemplate` is `GetPathTemplate` (`none`
models its error: the route has no registered path); `methods` is
`GetMethods` (`none` models its error: no methods registered). `matchPath`
is the route's non-method matcher set (path/host/header matching), opaque
per the spec: the path-matching engine internals are an external
collaborator. -/
structure Route where
  pathTemplate : Option String
  methods : Option (List String)
  matchPath : String → Bool
  handler : HandlerRef

/-- The `*mux.Router` state the server configures: registered routes in
registration order, the two fallback handlers, `StrictSlash`, and whether
`router.Use(srv.filter())` has installed the kratos filter middleware. -/
structure MuxRouter where
  routes : List Route
  notFoundHandler : Option HandlerRef
  methodNotAllowedHandler : Option HandlerRef
  strictSlash : Bool
  useFilter : Bool

/-- `http.Server` as the repository configures it. -/
structure HTTPServer where
  tlsConfig : Option TLSConf
  handler : HandlerRef
deriving DecidableEq, Repr

/-- `http3.Server` as the repository configures it. -/
structure HTTP3Server where
  tlsConfig : Option TLSConf
  handler : HandlerRef
deriving DecidableEq, Repr

/-- The `Server` struct of `transport/http/http3.go`. Function-typed fields
(`filters`, `middleware`) are carried as counts of registered entries and the
decoder/encoder fields as hook identities; none of the claims inspect their
behaviour. -/
structure Server where
  httpsrv : Option HTTPServer
  lis : Option NetListener
  tlsConf : Option TLSConf
  endpoint : Option URL
  err : Option GoError
  network : String
  address : String
  timeout : Int
  filters : Nat
  middleware : Nat
  decVars : HookRef
  decQuery : HookRef
  decBody : HookRef
  enc : HookRef
  ene : HookRef
  strictSlash : Bool
  router : MuxRouter
  enableHttp3 : Bool
  http3Lis : Option QUICEarlyListener
  http3srv : Option HTTP3Server

/-- The network environment: outcomes of successive listen calls (by call
index, network and address), and the private interface address that wildcard
hosts resolve to. -/
structure Net where
  tcpListen : Nat → String → String → Except GoError Addr
  quicListen : Nat → String → Except GoError Addr
  privateIP : String

/-- Mutable world threaded through effectful operations: the network oracle
plus the number of listen calls already made (so a re-bind is observable). -/
structure World where
  net : Net
  tcpCalls : Nat
  quicCalls : Nat

/-- One `net.Listen(network, address)` call: consumes the next TCP outcome. -/
def tcpListenCall (s : Server) (w : World) : Except GoError NetListener × World :=
  (match w.net.tcpListen w.tcpCalls s.network s.address with
   | .error e => .error e
   | .ok a => .ok ⟨a⟩,
   { w with tcpCalls := w.tcpCalls + 1 })

/-- One `quic.ListenAddrEarly(address, ...)` call: consumes the next QUIC outcome. -/
def quicListenCall (s : Server) (w : World) : Except GoError QUICEarlyListener × World :=
  (match w.net.quicListen w.quicCalls s.address with
   | .error e => .error e
   | .ok a => .ok ⟨a⟩,
   { w with quicCalls := w.quicCalls + 1 })

/-- Splits `host:port` at the last colon, as `net.SplitHostPort` does for the
non-IPv6 addresses the model covers; `none` when there is no colon. -/
def splitHostPortAux : List Char → Option (List Char × List Char)
  | [] => none
  | c :: cs =>
    match splitHostPortAux cs with
    | some (h, p) => some (c :: h, p)
    | none => if c = ':' then some ([], cs) else none

/-- `net.SplitHostPort` on the configured address string. -/
def splitHostPort (s : String) : Except GoError (String × String) :=
  match splitHostPortAux s.data with
  | some (h, p) => .ok (⟨h⟩, ⟨p⟩)
  | none => .error (.msg ("address " ++ s ++ ": missing port in address"))

/-- A wildcard host, to be replaced by a concrete interface address. -/
def isWildcardHost (h : String) : Bool :=
  h == "" || h == "0.0.0.0" || h == "[::]" || h == "::"

/-- Modelled from the spec: `internal/host.Extract` is not under `src/`.
Spec section 4.3: derive host:port from the actual bound address, resolving a
wildcard host / ephemeral port to a concrete, externally reachable form. The
port comes from the supplied listener when one is present, else the
configured port is kept; a wildcard or empty host is replaced by the
machine's private interface address. -/
def hostExtract (hostPort : String) (lis : Option Addr) (privateIP : String) :
    Except GoError String :=
  match splitHostPort hostPort with
  | .error e => .error e
  | .ok (host, portStr) =>
    let port := match lis with
      | some a => toString a.port
      | none => portStr
    if isWildcardHost host then .ok (privateIP ++ ":" ++ port)
    else .ok (host ++ ":" ++ port)

/-- Modelled from the spec: `internal/endpoint.Scheme` is not under `src/`.
Spec section 4.3: scheme is `https` when TLS is configured, else `http`. -/
def endpointScheme (scheme : String) (isSecure : Bool) : String :=
  if isSecure then scheme ++ "s" else scheme

/-- Modelled from the spec: `internal/endpoint.NewEndpoint` is not under
`src/`. Spec section 6: the produced Endpoint URL is `scheme://host:port`. -/
def newEndpoint (scheme host : String) : URL :=
  { scheme := scheme, host := host }

/-- The `ServerOption` constructors of `transport/http/http3.go`, one per
option function of the source (the `PathPrefix` option, which swaps the
router for a subrouter, is the only one not modelled; no claim involves it). -/
inductive ServerOption where
  | network : String → ServerOption
  | address : String → ServerOption
  | endpointOpt : URL → ServerOption
  | timeout : Int → ServerOption
  | logger : ServerOption
  | middlewareOpt : Nat → ServerOption
  | filtersOpt : Nat → ServerOption
  | requestVarsDecoder : HookRef → ServerOption
  | requestQueryDecoder : HookRef → ServerOption
  | requestDecoder : HookRef → ServerOption
  | responseEncoder : HookRef → ServerOption
  | errorEncoder : HookRef → ServerOption
  | tlsConfig : Option TLSConf → ServerOption
  | strictSlash : Bool → ServerOption
  | listener : NetListener → ServerOption
  | http3Listener : QUICEarlyListener → ServerOption
  | enableHTTP3 : ServerOption

/-- Application of one option to the server under construction, mirroring the
closures of the source file one branch per option. -/
def applyOption (s : Server) : ServerOption → Server
  | .network n => { s with network := n }
  | .address a => { s with address := a }
  | .endpointOpt u => { s with endpoint := some u }
  | .timeout d => { s with timeout := d }
  | .logger => s
  | .middlewareOpt k => { s with middleware := s.middleware + k }
  | .filtersOpt k => { s with filters := k }
  | .requestVarsDecoder h => { s with decVars := h }
  | .requestQueryDecoder h => { s with decQuery := h }
  | .requestDecoder h => { s with decBody := h }
  | .responseEncoder h => { s with enc := h }
  | .errorEncoder h => { s with ene := h }
  | .tlsConfig c => { s with tlsConf := c }
  | .strictSlash b => { s with strictSlash := b }
  | .listener l => { s with lis := some l }
  | .http3Listener l => { s with http3Lis := some l }
  | .enableHTTP3 => { s with enableHttp3 := true }

/-- The struct literal at the top of `NewServer`: the default configuration
before options run (`1 * time.Second` is 1000000000 nanoseconds; the router
starts as `mux.NewRouter()`, whose `StrictSlash` default is false). -/
def defaultServer : Server :=
  { httpsrv := none, lis := none, tlsConf := none, endpoint := none, err := none,
    network := "tcp", address := ":0", timeout := 1000000000,
    filters := 0, middleware := 0,
    decVars := .defaultRequestVars, decQuery := .defaultRequestQuery,
    decBody := .defaultRequestDecoder, enc := .defaultResponseEncoder,
    ene := .defaultErrorEncoder,
    strictSlash := true,
    router := { routes := [], notFoundHandler := none,
                methodNotAllowedHandler := none, strictSlash := false,
                useFilter := false },
    enableHttp3 := false, http3Lis := none, http3srv := none }

/-- The router configuration block of `NewServer`: `StrictSlash`, both
fallback handlers set to `http.DefaultServeMux`, and `Use(srv.filter())`. -/
def withRouterConfigured (s : Server) : Server :=
  { s with router := { s.router with
      strictSlash := s.strictSlash,
      notFoundHandler := some .defaultServeMux,
      methodNotAllowedHandler := some .defaultServeMux,
      useFilter := true } }

/-- The backend selection block of `NewServer`: exactly one backend is
constructed according to `enableHttp3`, with the filter-chain-wrapped router
as its handler. -/
def buildBackend (s : Server) : Server :=
  if s.enableHttp3 then
    { s with http3srv := some { tlsConfig := s.tlsConf, handler := .wrappedRouter } }
  else
    { s with httpsrv := some { tlsConfig := s.tlsConf, handler := .wrappedRouter } }

/-- `NewServer` of `transport/http/http3.go`: defaults, option application,
router configuration, then backend selection. -/
def newServer (opts : List ServerOption) : Server :=
  buildBackend (withRouterConfigured (opts.foldl applyOption defaultServer))

/-- `Server.Handle` / `Server.HandleFunc` / `Server.HandleHeader`: route
registration appends a route to the router. -/
def Server.Handle (s : Server) (rt : Route) : Server :=
  { s with router := { s.router with routes := s.router.routes ++ [rt] } }

/-- `handleEndpoint` of `transport/http/http3.go` (lines 439-451): when no
explicit endpoint override is set, extract the advertised host:port from the
configured address and the supplied listener, and combine it with scheme
`https`/`http` according to TLS presence. On extraction failure the error is
cached in `s.err`. -/
def Server.handleEndpoint (s : Server) (ln : Option Addr) (privateIP : String) :
    Except GoError Unit × Server :=
  match s.endpoint with
  | some _ => (.ok (), s)
  | none =>
    match hostExtract s.address ln privateIP with
    | .error e => (.error e, { s with err := some e })
    | .ok addr =>
      let u := newEndpoint (endpointScheme "http" s.tlsConf.isSome) addr
      (.ok (), { s with endpoint := some u })

/-- The tail of `listenAndEndpoint` after the listener is ensured: the call
`s.handleEndpoint(s.http3Lis)` — note the source passes `s.http3Lis`
regardless of transport mode (http3.go line 433) — followed by `return s.err`. -/
def afterListen (s : Server) (w : World) : Except GoError Unit × Server × World :=
  match (Server.handleEndpoint s (s.http3Lis.map QUICEarlyListener.addr) w.net.privateIP).1 with
  | .error e =>
    (.error e, (Server.handleEndpoint s (s.http3Lis.map QUICEarlyListener.addr) w.net.privateIP).2, w)
  | .ok _ =>
    match (Server.handleEndpoint s (s.http3Lis.map QUICEarlyListener.addr) w.net.privateIP).2.err with
    | some e =>
      (.error e, (Server.handleEndpoint s (s.http3Lis.map QUICEarlyListener.addr) w.net.privateIP).2, w)
    | none =>
      (.ok (), (Server.handleEndpoint s (s.http3Lis.map QUICEarlyListener.addr) w.net.privateIP).2, w)

/-- `listenAndEndpoint` of `transport/http/http3.go` (lines 413-437): ensure
the mode-appropriate listener exists (binding it when absent, caching a bind
failure in `s.err`), then resolve the endpoint and return `s.err`. -/
def Server.listenAndEndpoint (s : Server) (w : World) :
    Except GoError Unit × Server × World :=
  if s.enableHttp3 then
    match s.http3Lis with
    | none =>
      match (quicListenCall s w).1 with
      | .error e => (.error e, { s with err := some e }, (quicListenCall s w).2)
      | .ok l => afterListen { s with http3Lis := some l } (quicListenCall s w).2
    | some _ => afterListen s w
  else
    match s.lis with
    | none =>
      match (tcpListenCall s w).1 with
      | .error e => (.error e, { s with err := some e }, (tcpListenCall s w).2)
      | .ok l => afterListen { s with lis := some l } (tcpListenCall s w).2
    | some _ => afterListen s w

/-- `Server.Endpoint`: run `listenAndEndpoint`, propagate its error, else
return the (now resolved) cached endpoint. -/
def Server.Endpoint (s : Server) (w : World) :
    Except GoError (Option URL) × Server × World :=
  match Server.listenAndEndpoint s w with
  | (.error e, s', w') => (.error e, s', w')
  | (.ok _, s', w') => (.ok s'.endpoint, s', w')

/-- Which blocking serve call `Start` reached, if any. -/
inductive ServeCall where
  | notCalled : ServeCall
  | serveTLS : ServeCall
  | servePlain : ServeCall
  | serveListener : ServeCall
deriving DecidableEq, Repr

/-- Outcome of `Start`: the returned error (`none` is Go `nil`), the final
server and world, and which serve call was reached. -/
structure StartResult where
  ret : Option GoError
  srv : Server
  world : World
  served : ServeCall

/-- `startHTTP`: resolve listener and endpoint, then block in
`ServeTLS`/`Serve` according to TLS presence; the serve loop's eventual
return value is supplied by the environment as `serveErr`. -/
def startHTTP (s : Server) (w : World) (serveErr : GoError) : StartResult :=
  match (s.listenAndEndpoint w).1 with
  | .error e =>
    ⟨some e, (s.listenAndEndpoint w).2.1, (s.listenAndEndpoint w).2.2, .notCalled⟩
  | .ok _ =>
    if (s.listenAndEndpoint w).2.1.tlsConf.isSome then
      ⟨some serveErr, (s.listenAndEndpoint w).2.1, (s.listenAndEndpoint w).2.2, .serveTLS⟩
    else
      ⟨some serveErr, (s.listenAndEndpoint w).2.1, (s.listenAndEndpoint w).2.2, .servePlain⟩

/-- `startHTTP3`: resolve listener and endpoint first; only then is a nil
TLS config rejected with the TLS-required error; otherwise block in
`ServeListener`. -/
def startHTTP3 (s : Server) (w : World) (serveErr : GoError) : StartResult :=
  match (s.listenAndEndpoint w).1 with
  | .error e =>
    ⟨some e, (s.listenAndEndpoint w).2.1, (s.listenAndEndpoint w).2.2, .notCalled⟩
  | .ok _ =>
    match (s.listenAndEndpoint w).2.1.tlsConf with
    | none =>
      ⟨some tlsRequiredError, (s.listenAndEndpoint w).2.1, (s.listenAndEndpoint w).2.2,
        .notCalled⟩
    | some _ =>
      ⟨some serveErr, (s.listenAndEndpoint w).2.1, (s.listenAndEndpoint w).2.2,
        .serveListener⟩

/-- The tail of `Start`: `if !errors.Is(err, http.ErrServerClosed) { return err };
return nil` — an `http.ErrServerClosed` outcome is translated into success. -/
def startFinish (r : StartResult) : StartResult :=
  match r.ret with
  | some e => if e.is .errServerClosed then { r with ret := none } else r
  | none => r

/-- `Server.Start`: dispatch on the transport mode, then translate an
`http.ErrServerClosed` result (checked with `errors.Is`) into success. -/
def Server.Start (s : Server) (w : World) (serveErr : GoError) : StartResult :=
  startFinish (if s.enableHttp3 then startHTTP3 s w serveErr else startHTTP s w serveErr)

/-- `Server.Stop`: `http3srv.Close()` in HTTP3 mode, `httpsrv.Shutdown(ctx)`
otherwise; the backend's result is supplied by the environment. The server
state is untouched. -/
def Server.Stop (s : Server) (closeResult shutdownResult : Option GoError) :
    Option GoError × Server :=
  if s.enableHttp3 then (closeResult, s) else (shutdownResult, s)

/-- `Server.ServeHTTP` delegates to the selected backend's handler. -/
def Server.serveHTTPTarget (s : Server) : Option HandlerRef :=
  if s.enableHttp3 then s.http3srv.map HTTP3Server.handler
  else s.httpsrv.map HTTPServer.handler

/-- An inbound request as the pipeline inspects it: method and URL path. -/
structure Request where
  method : String
  path : String

/-- Outcome of matching one `mux.Route` against a request: all matchers
succeed, everything but the method matcher succeeds, or no match. -/
inductive RouteMatchOutcome where
  | full : RouteMatchOutcome
  | methodMismatch : RouteMatchOutcome
  | noMatch : RouteMatchOutcome
deriving DecidableEq, Repr

/-- `mux.Route.Match` for one route: the non-method matchers (`matchPath`)
plus the method matcher when methods are registered. -/
def Route.matchOutcome (rt : Route) (method path : String) : RouteMatchOutcome :=
  if rt.matchPath path then
    match rt.methods with
    | none => .full
    | some ms => if ms.contains method then .full else .methodMismatch
  else .noMatch

/-- First route that fully matches the request, in registration order
(gorilla/mux `Router.Match` iteration). -/
def findFull (rts : List Route) (method path : String) : Option Route :=
  match rts with
  | [] => none
  | rt :: rest =>
    if rt.matchOutcome method path = .full then some rt
    else findFull rest method path

/-- Whether some route failed only on its method matcher (gorilla/mux records
`ErrMethodMismatch` in that case). -/
def anyMethodMismatch (rts : List Route) (method path : String) : Bool :=
  rts.any (fun rt => rt.matchOutcome method path == .methodMismatch)

/-- Result of router dispatch (`mux.Router.Match` + `ServeHTTP`): the handler
selected for the request, whether the router's `Use` middlewares (here the
kratos filter) were wrapped around it, and the route recorded in the request
context (`mux.CurrentRoute`). -/
structure DispatchResult where
  handler : HandlerRef
  filterApplied : Bool
  currentRoute : Option Route

/-- Dispatch discipline of gorilla/mux v1.8 `Router.Match`/`ServeHTTP` (the
router version the repository builds on): the first fully matching route gets
the middleware-wrapped handler and is recorded as the current route; on a
method-only mismatch the `MethodNotAllowedHandler` (if set) is used, else on
no match the `NotFoundHandler` (if set); in the fallback cases the `Use`
middlewares are not applied and no current route is recorded. Subrouters and
the walk-skip sentinel are not modelled (the repository registers no
subrouters on this path). -/
def MuxRouter.dispatch (r : MuxRouter) (method path : String) : DispatchResult :=
  match findFull r.routes method path with
  | some rt => { handler := rt.handler, filterApplied := r.useFilter, currentRoute := some rt }
  | none =>
    if anyMethodMismatch r.routes method path then
      match r.methodNotAllowedHandler with
      | some h => { handler := h, filterApplied := false, currentRoute := none }
      | none => { handler := .builtinMethodNotAllowed, filterApplied := false, currentRoute := none }
    else
      match r.notFoundHandler with
      | some h => { handler := h, filterApplied := false, currentRoute := none }
      | none => { handler := .builtinNotFound, filterApplied := false, currentRoute := none }

/-- The per-request context the filter derives: `context.WithTimeout` of the
configured duration, or `context.WithCancel`. -/
inductive CtxKind where
  | withTimeout : Int → CtxKind
  | withCancel : CtxKind
deriving DecidableEq, Repr

/-- The `Transport` value object built by the filter (header carriers and the
request reference are live views, carried opaquely and not modelled). -/
structure Transport where
  operation : String
  pathTemplate : String
  endpoint : String
deriving DecidableEq, Repr

/-- Result of one execution of the filter wrapper body. -/
structure FilterResult where
  ctx : CtxKind
  cancelInvoked : Bool
  tr : Transport
deriving DecidableEq, Repr

/-- The body of `filter` in `transport/http/http3.go` (lines 313-347): derive
the child context (`WithTimeout` when `timeout > 0`, else `WithCancel`;
`defer cancel()` fires on every exit path), resolve the path template from
the current route when one was matched — `pathTemplate, _ =
route.GetPathTemplate()` discards the error, leaving the empty string — else
keep the raw request path, and build the `Transport` with operation equal to
that template and the resolved endpoint string when available. -/
def Server.filterRun (s : Server) (req : Request) (currentRoute : Option Route) :
    FilterResult :=
  let ctx : CtxKind := if 0 < s.timeout then .withTimeout s.timeout else .withCancel
  let pathTemplate : String :=
    match currentRoute with
    | some route => (route.pathTemplate).getD ""
    | none => req.path
  let tr : Transport :=
    { operation := pathTemplate, pathTemplate := pathTemplate,
      endpoint := match s.endpoint with | some u => u.toString | none => "" }
  { ctx := ctx, cancelInvoked := true, tr := tr }

/-- Observable outcome of pushing one request through the server's handler
(the filter-chain-wrapped router): which handler ran, whether the kratos
filter ran (and therefore whether a Transport Context was injected), and the
data it derived. -/
structure ServeOutcome where
  handler : HandlerRef
  transportInjected : Bool
  operation : Option String
  ctx : Option CtxKind
  cancelInvoked : Bool

/-- One request through the pipeline: router dispatch picks the handler; the
filter middleware body runs exactly when the router applied its `Use`
middlewares to the matched route. -/
def Server.handleRequest (s : Server) (req : Request) : ServeOutcome :=
  if (s.router.dispatch req.method req.path).filterApplied then
    { handler := (s.router.dispatch req.method req.path).handler,
      transportInjected := true,
      operation :=
        some (s.filterRun req (s.router.dispatch req.method req.path).currentRoute).tr.operation,
      ctx := some (s.filterRun req (s.router.dispatch req.method req.path).currentRoute).ctx,
      cancelInvoked :=
        (s.filterRun req (s.router.dispatch req.method req.path).currentRoute).cancelInvoked }
  else
    { handler := (s.router.dispatch req.method req.path).handler,
      transportInjected := false,
      operation := none, ctx := none, cancelInvoked := false }

/-- `RouteInfo` of the walk surface: method and path template. -/
structure RouteInfo where
  method : String
  path : String
deriving DecidableEq, Repr

/-- Inner loop of `WalkRoute`: invoke the callback once per method of the
route, aborting on the first callback error. -/
def visitMethods (fn : RouteInfo → Except GoError Unit) :
    List String → String → Except GoError Unit
  | [], _ => .ok ()
  | m :: ms, path =>
    match fn { method := m, path := path } with
    | .error e => .error e
    | .ok _ => visitMethods fn ms path

/-- `WalkRoute` of `transport/http/http3.go` (lines 252-269) over the
router's route list: a route whose `GetMethods` fails is skipped with a nil
error; a `GetPathTemplate` failure aborts the walk with mux's error; the
callback is invoked per (method, template) pair and its first error aborts
the walk. -/
def walkRoutes (fn : RouteInfo → Except GoError Unit) :
    List Route → Except GoError Unit
  | [] => .ok ()
  | rt :: rest =>
    match rt.methods with
    | none => walkRoutes fn rest
    | some ms =>
      match rt.pathTemplate with
      | none => .error (.msg "mux: route doesn't have a path")
      | some path =>
        match visitMethods fn ms path with
        | .error e => .error e
        | .ok _ => walkRoutes fn rest

/-- `Server.WalkRoute`. -/
def Server.WalkRoute (s : Server) (fn : RouteInfo → Except GoError Unit) :
    Except GoError Unit :=
  walkRoutes fn s.router.routes

/-- The (method, path template) pairs of the routes whose methods resolve, in
visit order — the sequence the spec says the walk yields. -/
def routePairs : List Route → List RouteInfo
  | [] => []
  | rt :: rest =>
    match rt.methods, rt.pathTemplate with
    | some ms, some path => ms.map (fun m => { method := m, path := path }) ++ routePairs rest
    | _, _ => routePairs rest

/-- Reference semantics of the walk as the spec states it: run the callback
on each yielded pair in order, stopping at and returning the first error. -/
def runCallbacks (fn : RouteInfo → Except GoError Unit) :
    List RouteInfo → Except GoError Unit
  | [] => .ok ()
  | i :: is =>
    match fn i with
    | .error e => .error e
    | .ok _ => runCallbacks fn is

/-- The fields that select the transport mode and backend. -/
def backendState (s : Server) : Bool × Option HTTPServer × Option HTTP3Server :=
  (s.enableHttp3, s.httpsrv, s.http3srv)

/-! ### Concrete environments used by the closed theorems -/

/-- A network where TCP binding succeeds, bound at 127.0.0.1:45678. -/
def wTcpOK : World :=
  { net := { tcpListen := fun _ _ _ => .ok ⟨"127.0.0.1", 45678⟩,
             quicListen := fun _ _ => .error (.msg "unused"),
             privateIP := "192.168.1.1" },
    tcpCalls := 0, quicCalls := 0 }

/-- A network where QUIC binding fails with an address-in-use fault. -/
def wQuicBindFail : World :=
  { net := { tcpListen := fun _ _ _ => .error (.msg "unused"),
             quicListen := fun _ _ => .error (.msg "listen udp :443: address already in use"),
             privateIP := "10.0.0.1" },
    tcpCalls := 0, quicCalls := 0 }

/-- A network where the first TCP bind fails with one fault and the retry
fails with a different one. -/
def wTcpFailTwice : World :=
  { net := { tcpListen := fun k _ _ =>
               if k = 0 then .error (.msg "attempt1") else .error (.msg "attempt2"),
             quicListen := fun _ _ => .error (.msg "unused"),
             privateIP := "10.0.0.1" },
    tcpCalls := 0, quicCalls := 0 }

/-- A registered route with path template `/index/{id}` (its concrete matcher
is opaque to the server; here it accepts the request path `/index/42`). -/
def rIndex : Route :=
  { pathTemplate := some "/index/{id}", methods := none,
    matchPath := fun p => p == "/index/42", handler := .user 1 }

/-- A default-constructed server with the `/index/{id}` route registered. -/
def sIndex : Server := (newServer []).Handle rIndex

/-! ### Helper lemmas -/

/-- The fields `listenAndEndpoint` never writes, bundled for preservation
statements. -/
def coreState (s : Server) :
    Bool × Option TLSConf × Option HTTPServer × Option HTTP3Server ×
      String × String × Int × MuxRouter :=
  (s.enableHttp3, s.tlsConf, s.httpsrv, s.http3srv, s.network, s.address,
    s.timeout, s.router)

/-- `handleEndpoint` only writes `endpoint` and `err`. -/
theorem handleEndpoint_core (s : Server) (ln : Option Addr) (ip : String) :
    coreState (s.handleEndpoint ln ip).2 = coreState s ∧
    (s.handleEndpoint ln ip).2.lis = s.lis ∧
    (s.handleEndpoint ln ip).2.http3Lis = s.http3Lis := by
  unfold Server.handleEndpoint
  rcases s.endpoint with _ | u
  · rcases hostExtract s.address ln ip with e | a <;> exact ⟨rfl, rfl, rfl⟩
  · exact ⟨rfl, rfl, rfl⟩

/-- `afterListen` only writes `endpoint` and `err`, and returns the world it
was given. -/
theorem afterListen_core (s : Server) (w : World) :
    coreState (afterListen s w).2.1 = coreState s ∧
    (afterListen s w).2.1.lis = s.lis ∧
    (afterListen s w).2.1.http3Lis = s.http3Lis ∧
    (afterListen s w).2.2 = w := by
  have h := handleEndpoint_core s (s.http3Lis.map QUICEarlyListener.addr) w.net.privateIP
  unfold afterListen
  split
  · exact ⟨h.1, h.2.1, h.2.2, rfl⟩
  · split
    · exact ⟨h.1, h.2.1, h.2.2, rfl⟩
    · exact ⟨h.1, h.2.1, h.2.2, rfl⟩

/-- `listenAndEndpoint` only writes the listeners, `endpoint` and `err`. -/
theorem listenAndEndpoint_core (s : Server) (w : World) :
    coreState (s.listenAndEndpoint w).2.1 = coreState s := by
  unfold Server.listenAndEndpoint
  split
  · split
    · split
      · exact rfl
      · exact ((afterListen_core _ _).1).trans (by rfl)
    · exact ((afterListen_core s w).1).trans (by rfl)
  · split
    · split
      · exact rfl
      · exact ((afterListen_core _ _).1).trans (by rfl)
    · exact ((afterListen_core s w).1).trans (by rfl)

theorem coreState_enableHttp3 {a b : Server} (h : coreState a = coreState b) :
    a.enableHttp3 = b.enableHttp3 := congrArg (fun t => t.1) h

theorem coreState_tlsConf {a b : Server} (h : coreState a = coreState b) :
    a.tlsConf = b.tlsConf := congrArg (fun t => t.2.1) h

theorem coreState_httpsrv {a b : Server} (h : coreState a = coreState b) :
    a.httpsrv = b.httpsrv := congrArg (fun t => t.2.2.1) h

theorem coreState_http3srv {a b : Server} (h : coreState a = coreState b) :
    a.http3srv = b.http3srv := congrArg (fun t => t.2.2.2.1) h

/-- The server after `handleEndpoint` resolves the endpoint from `hp`. -/
def resolvedServer (s : Server) (hp : String) : Server :=
  { s with endpoint := some (newEndpoint (endpointScheme "http" s.tlsConf.isSome) hp) }

/-! Forward evaluation equations for `handleEndpoint` and `afterListen`. -/

theorem handleEndpoint_eq_cached (s : Server) (ln : Option Addr) (ip : String)
    (u : URL) (he : s.endpoint = some u) :
    s.handleEndpoint ln ip = (.ok (), s) := by
  unfold Server.handleEndpoint
  rw [he]

theorem handleEndpoint_eq_resolve (s : Server) (ln : Option Addr) (ip : String)
    (hp : String) (he : s.endpoint = none)
    (hx : hostExtract s.address ln ip = .ok hp) :
    s.handleEndpoint ln ip = (.ok (), resolvedServer s hp) := by
  unfold Server.handleEndpoint
  rw [he, hx]
  rfl

theorem handleEndpoint_eq_extract_err (s : Server) (ln : Option Addr) (ip : String)
    (e : GoError) (he : s.endpoint = none)
    (hx : hostExtract s.address ln ip = .error e) :
    s.handleEndpoint ln ip = (.error e, { s with err := some e }) := by
  unfold Server.handleEndpoint
  rw [he, hx]

theorem afterListen_eq_cached (s : Server) (w : World) (u : URL)
    (he : s.endpoint = some u) (hse : s.err = none) :
    afterListen s w = (.ok (), s, w) := by
  unfold afterListen
  rw [handleEndpoint_eq_cached s _ _ u he]
  show (match s.err with
        | some e => (Except.error e, s, w)
        | none => (Except.ok (), s, w)) = _
  rw [hse]

theorem afterListen_eq_cached_err (s : Server) (w : World) (u : URL) (e : GoError)
    (he : s.endpoint = some u) (hse : s.err = some e) :
    afterListen s w = (.error e, s, w) := by
  unfold afterListen
  rw [handleEndpoint_eq_cached s _ _ u he]
  show (match s.err with
        | some e => (Except.error e, s, w)
        | none => (Except.ok (), s, w)) = _
  rw [hse]

theorem afterListen_eq_resolve (s : Server) (w : World) (hp : String)
    (he : s.endpoint = none)
    (hx : hostExtract s.address (s.http3Lis.map QUICEarlyListener.addr)
            w.net.privateIP = .ok hp)
    (hse : s.err = none) :
    afterListen s w = (.ok (), resolvedServer s hp, w) := by
  unfold afterListen
  rw [handleEndpoint_eq_resolve s _ _ hp he hx]
  show (match s.err with
        | some e => _
        | none => _) = _
  rw [hse]

theorem afterListen_eq_resolve_err (s : Server) (w : World) (hp : String) (e : GoError)
    (he : s.endpoint = none)
    (hx : hostExtract s.address (s.http3Lis.map QUICEarlyListener.addr)
            w.net.privateIP = .ok hp)
    (hse : s.err = some e) :
    afterListen s w = (.error e, resolvedServer s hp, w) := by
  unfold afterListen
  rw [handleEndpoint_eq_resolve s _ _ hp he hx]
  show (match s.err with
        | some e => _
        | none => _) = _
  rw [hse]

theorem afterListen_eq_extract_err (s : Server) (w : World) (e : GoError)
    (he : s.endpoint = none)
    (hx : hostExtract s.address (s.http3Lis.map QUICEarlyListener.addr)
            w.net.privateIP = .error e) :
    afterListen s w = (.error e, { s with err := some e }, w) := by
  unfold afterListen
  rw [handleEndpoint_eq_extract_err s _ _ e he hx]

/-- Postconditions of a successful `afterListen`. -/
theorem afterListen_ok {s : Server} {w : World} {s1 : Server} {w1 : World}
    (h : afterListen s w = (.ok (), s1, w1)) :
    s1.err = none ∧ w1 = w ∧ s1.lis = s.lis ∧ s1.http3Lis = s.http3Lis ∧
    coreState s1 = coreState s ∧
    (∀ u, s.endpoint = some u → s1.endpoint = some u) ∧
    (s.endpoint = none → ∃ hp, s1.endpoint =
      some (newEndpoint (endpointScheme "http" s.tlsConf.isSome) hp)) := by
  rcases he : s.endpoint with _ | u
  · rcases hx : hostExtract s.address (s.http3Lis.map QUICEarlyListener.addr)
        w.net.privateIP with e | hp
    · rw [afterListen_eq_extract_err s w e he hx] at h
      exact absurd (congrArg (fun t => t.1) h) (by simp)
    · rcases hse : s.err with _ | e
      · rw [afterListen_eq_resolve s w hp he hx hse] at h
        simp only [Prod.mk.injEq] at h
        obtain ⟨-, h1, h2⟩ := h
        subst h1; subst h2
        refine ⟨hse, rfl, rfl, rfl, rfl, ?_, ?_⟩
        · intro u hu
          exact absurd hu (by simp)
        · intro _
          exact ⟨hp, rfl⟩
      · rw [afterListen_eq_resolve_err s w hp e he hx hse] at h
        exact absurd (congrArg (fun t => t.1) h) (by simp)
  · rcases hse : s.err with _ | e
    · rw [afterListen_eq_cached s w u he hse] at h
      simp only [Prod.mk.injEq] at h
      obtain ⟨-, h1, h2⟩ := h
      subst h1; subst h2
      refine ⟨hse, rfl, rfl, rfl, rfl, ?_, ?_⟩
      · intro u' hu
        exact he.trans hu
      · intro hN
        exact absurd hN (by simp)
    · rw [afterListen_eq_cached_err s w u e he hse] at h
      exact absurd (congrArg (fun t => t.1) h) (by simp)

/-- Postconditions of a successful `listenAndEndpoint`. -/
theorem listenAndEndpoint_ok {s : Server} {w : World} {s1 : Server} {w1 : World}
    (h : s.listenAndEndpoint w = (.ok (), s1, w1)) :
    s1.err = none ∧ coreState s1 = coreState s ∧
    (s.enableHttp3 = true → ∃ l, s1.http3Lis = some l) ∧
    (s.enableHttp3 = false → ∃ l, s1.lis = some l) ∧
    (∀ u, s.endpoint = some u → s1.endpoint = some u) ∧
    (s.endpoint = none → ∃ hp, s1.endpoint =
      some (newEndpoint (endpointScheme "http" s.tlsConf.isSome) hp)) := by
  unfold Server.listenAndEndpoint at h
  by_cases hm : s.enableHttp3 = true
  · rw [if_pos hm] at h
    split at h
    · split at h
      · exact absurd (congrArg (fun t => t.1) h) (by simp)
      · rename_i l hq
        obtain ⟨h1, h2, h3, h4, h5, h6, h7⟩ := afterListen_ok h
        refine ⟨h1, h5, fun _ => ⟨l, h4⟩, ?_, h6, h7⟩
        intro hf
        rw [hm] at hf
        exact absurd hf (by simp)
    · rename_i l hl
      obtain ⟨h1, h2, h3, h4, h5, h6, h7⟩ := afterListen_ok h
      refine ⟨h1, h5, fun _ => ⟨l, h4.trans hl⟩, ?_, h6, h7⟩
      intro hf
      rw [hm] at hf
      exact absurd hf (by simp)
  · have hmf : s.enableHttp3 = false := by simpa using hm
    rw [if_neg hm] at h
    split at h
    · split at h
      · exact absurd (congrArg (fun t => t.1) h) (by simp)
      · rename_i l hq
        obtain ⟨h1, h2, h3, h4, h5, h6, h7⟩ := afterListen_ok h
        refine ⟨h1, h5, ?_, fun _ => ⟨l, h3⟩, h6, h7⟩
        intro hf
        rw [hmf] at hf
        exact absurd hf (by simp)
    · rename_i l hl
      obtain ⟨h1, h2, h3, h4, h5, h6, h7⟩ := afterListen_ok h
      refine ⟨h1, h5, ?_, fun _ => ⟨l, h3.trans hl⟩, h6, h7⟩
      intro hf
      rw [hmf] at hf
      exact absurd hf (by simp)

/-- A fully resolved server (cached endpoint, no cached error, listener
present for its mode) is a fixed point of `listenAndEndpoint`: no rebinding,
no state change. -/
theorem listenAndEndpoint_stable (s : Server) (w : World) (u : URL)
    (he : s.endpoint = some u) (hse : s.err = none)
    (h3 : s.enableHttp3 = true → ∃ l, s.http3Lis = some l)
    (htcp : s.enableHttp3 = false → ∃ l, s.lis = some l) :
    s.listenAndEndpoint w = (.ok (), s, w) := by
  unfold Server.listenAndEndpoint
  by_cases hm : s.enableHttp3 = true
  · rw [if_pos hm]
    obtain ⟨l, hl⟩ := h3 hm
    rw [hl]
    exact afterListen_eq_cached s w u he hse
  · rw [if_neg hm]
    have hmf : s.enableHttp3 = false := by simpa using hm
    obtain ⟨l, hl⟩ := htcp hmf
    rw [hl]
    exact afterListen_eq_cached s w u he hse

/-- A failing TCP bind: the error is returned and cached, the listener stays
absent, and the listen-call counter advances. -/
theorem listenAndEndpoint_tcp_bindfail (s : Server) (w : World) (e : GoError)
    (hm : s.enableHttp3 = false) (hl : s.lis = none)
    (hfail : w.net.tcpListen w.tcpCalls s.network s.address = .error e) :
    s.listenAndEndpoint w =
      (.error e, { s with err := some e }, { w with tcpCalls := w.tcpCalls + 1 }) := by
  unfold Server.listenAndEndpoint
  rw [if_neg (by simp [hm]), hl]
  have h1 : (tcpListenCall s w).1 = .error e := by
    unfold tcpListenCall
    rw [hfail]
  rw [h1]
  rfl

/-- In TCP mode with no listener yet, every `listenAndEndpoint` call invokes
`net.Listen` once more, whatever the outcome. -/
theorem listenAndEndpoint_tcp_rebinds (s : Server) (w : World)
    (hm : s.enableHttp3 = false) (hl : s.lis = none) :
    (s.listenAndEndpoint w).2.2.tcpCalls = w.tcpCalls + 1 := by
  unfold Server.listenAndEndpoint
  rw [if_neg (by simp [hm]), hl]
  rcases hq : (tcpListenCall s w).1 with e | l
  · show (tcpListenCall s w).2.tcpCalls = w.tcpCalls + 1
    rfl
  · show (afterListen { s with lis := some l } (tcpListenCall s w).2).2.2.tcpCalls =
      w.tcpCalls + 1
    rw [(afterListen_core { s with lis := some l } (tcpListenCall s w).2).2.2.2]
    rfl

/-- `Endpoint` on a successful resolution. -/
theorem Endpoint_eq_of_ok {s : Server} {w : World} {s1 : Server} {w1 : World}
    (hle : s.listenAndEndpoint w = (.ok (), s1, w1)) :
    Server.Endpoint s w = (.ok s1.endpoint, s1, w1) := by
  unfold Server.Endpoint
  rw [hle]

/-- `Endpoint` on a failed resolution. -/
theorem Endpoint_eq_of_err {s : Server} {w : World} {e : GoError} {s1 : Server}
    {w1 : World} (hle : s.listenAndEndpoint w = (.error e, s1, w1)) :
    Server.Endpoint s w = (.error e, s1, w1) := by
  unfold Server.Endpoint
  rw [hle]

/-- No option ever writes the backend fields; they stay as defaulted until
`buildBackend` runs. -/
theorem foldl_applyOption_backends (opts : List ServerOption) (s0 : Server) :
    (opts.foldl applyOption s0).httpsrv = s0.httpsrv ∧
    (opts.foldl applyOption s0).http3srv = s0.http3srv := by
  induction opts generalizing s0 with
  | nil => exact ⟨rfl, rfl⟩
  | cons o rest ih =>
    rw [List.foldl_cons]
    have hpre : (applyOption s0 o).httpsrv = s0.httpsrv ∧
        (applyOption s0 o).http3srv = s0.http3srv := by
      cases o <;> exact ⟨rfl, rfl⟩
    exact ⟨(ih _).1.trans hpre.1, (ih _).2.trans hpre.2⟩

/-- Route registration touches only the route list. -/
theorem foldl_Handle_preserves (rts : List Route) (s0 : Server) :
    (rts.foldl Server.Handle s0).router.notFoundHandler = s0.router.notFoundHandler ∧
    (rts.foldl Server.Handle s0).router.methodNotAllowedHandler =
      s0.router.methodNotAllowedHandler ∧
    (rts.foldl Server.Handle s0).router.useFilter = s0.router.useFilter ∧
    backendState (rts.foldl Server.Handle s0) = backendState s0 := by
  induction rts generalizing s0 with
  | nil => exact ⟨rfl, rfl, rfl, rfl⟩
  | cons rt rest ih =>
    rw [List.foldl_cons]
    have h := ih (s0.Handle rt)
    exact ⟨h.1.trans rfl, h.2.1.trans rfl, h.2.2.1.trans rfl, h.2.2.2.trans rfl⟩

/-- `NewServer` installs `http.DefaultServeMux` as both router fallbacks and
the kratos filter as router middleware, whatever the options were. -/
theorem newServer_router_config (opts : List ServerOption) :
    (newServer opts).router.notFoundHandler = some HandlerRef.defaultServeMux ∧
    (newServer opts).router.methodNotAllowedHandler = some HandlerRef.defaultServeMux ∧
    (newServer opts).router.useFilter = true := by
  unfold newServer buildBackend
  split <;> exact ⟨rfl, rfl, rfl⟩

/-- `visitMethods` is `runCallbacks` over the per-method pairs. -/
theorem visitMethods_eq (fn : RouteInfo → Except GoError Unit)
    (ms : List String) (p : String) :
    visitMethods fn ms p =
      runCallbacks fn (ms.map (fun m => { method := m, path := p })) := by
  induction ms with
  | nil => rfl
  | cons m rest ih =>
    cases hf : fn { method := m, path := p } <;>
      simp [visitMethods, runCallbacks, hf, ih]

/-- `runCallbacks` over an appended list runs the first part, then the rest
unless it already failed. -/
theorem runCallbacks_append (fn : RouteInfo → Except GoError Unit)
    (a b : List RouteInfo) :
    runCallbacks fn (a ++ b) =
      match runCallbacks fn a with
      | .error e => .error e
      | .ok _ => runCallbacks fn b := by
  induction a with
  | nil => simp [runCallbacks]
  | cons i rest ih =>
    cases hf : fn i <;> simp [runCallbacks, hf, ih]

/-- The walk loop agrees with the reference callback run when every route
with resolvable methods also has a resolvable template. -/
theorem walkRoutes_eq (fn : RouteInfo → Except GoError Unit) (rts : List Route)
    (h : ∀ rt ∈ rts, rt.methods.isSome = true → rt.pathTemplate.isSome = true) :
    walkRoutes fn rts = runCallbacks fn (routePairs rts) := by
  induction rts with
  | nil => rfl
  | cons rt rest ih =>
    have hrest : ∀ r ∈ rest, r.methods.isSome = true → r.pathTemplate.isSome = true :=
      fun r hr => h r (by simp [hr])
    rcases hm : rt.methods with _ | ms
    · simp [walkRoutes, routePairs, hm, ih hrest]
    · have hpt : rt.pathTemplate.isSome = true := h rt (by simp) (by simp [hm])
      rcases hp : rt.pathTemplate with _ | p
      · rw [hp] at hpt
        simp at hpt
      · rw [walkRoutes, routePairs]
        rw [hm, hp]
        show (match visitMethods fn ms p with
              | .error e => .error e
              | .ok _ => walkRoutes fn rest) =
          runCallbacks fn
            (ms.map (fun m => { method := m, path := p }) ++ routePairs rest)
        rw [visitMethods_eq, runCallbacks_append]
        cases runCallbacks fn (ms.map (fun m => { method := m, path := p })) <;>
          simp [ih hrest]

theorem backendState_of_core {a b : Server} (h : coreState a = coreState b) :
    backendState a = backendState b := by
  unfold backendState
  rw [coreState_enableHttp3 h, coreState_httpsrv h, coreState_http3srv h]

/-- The `ErrServerClosed` translation never changes the final server, world
or reached serve call. -/
theorem startFinish_served (r : StartResult) :
    (startFinish r).served = r.served ∧ (startFinish r).srv = r.srv ∧
    (startFinish r).world = r.world := by
  rcases hr : r.ret with _ | e
  · simp [startFinish, hr]
  · by_cases hc : e.is .errServerClosed = true
    · simp [startFinish, hr, hc]
    · simp [startFinish, hr, hc]

/-- The three observable facts about `startFinish` of a serve result. -/
theorem startFinish_props (e : GoError) (a : Server) (ww : World) (sc : ServeCall) :
    ((startFinish ⟨some e, a, ww, sc⟩).ret = none ↔ e.is .errServerClosed = true) ∧
    (e.is .errServerClosed = false → (startFinish ⟨some e, a, ww, sc⟩).ret = some e) ∧
    (startFinish ⟨some e, a, ww, sc⟩).served = sc := by
  by_cases hc : e.is .errServerClosed = true
  · simp [startFinish, hc]
  · have hcf : e.is .errServerClosed = false := by simpa using hc
    simp [startFinish, hcf]

/-- `Endpoint` returns `listenAndEndpoint`'s final server and world. -/
theorem Endpoint_state (s : Server) (w : World) :
    (Server.Endpoint s w).2.1 = (s.listenAndEndpoint w).2.1 ∧
    (Server.Endpoint s w).2.2 = (s.listenAndEndpoint w).2.2 := by
  unfold Server.Endpoint
  rcases hle : s.listenAndEndpoint w with ⟨r, s1, w1⟩
  cases r <;> exact ⟨rfl, rfl⟩

/-- `startHTTP` never writes the backend fields. -/
theorem startHTTP_backends (s : Server) (w : World) (e : GoError) :
    backendState (startHTTP s w e).srv = backendState s := by
  have hb := backendState_of_core (listenAndEndpoint_core s w)
  unfold startHTTP
  rcases hr : (s.listenAndEndpoint w).1 with e1 | u1
  · exact hb
  · by_cases ht : (s.listenAndEndpoint w).2.1.tlsConf.isSome = true
    · rw [if_pos ht]
      exact hb
    · rw [if_neg ht]
      exact hb

/-- `startHTTP3` never writes the backend fields. -/
theorem startHTTP3_backends (s : Server) (w : World) (e : GoError) :
    backendState (startHTTP3 s w e).srv = backendState s := by
  have hb := backendState_of_core (listenAndEndpoint_core s w)
  unfold startHTTP3
  rcases hr : (s.listenAndEndpoint w).1 with e1 | u1
  · exact hb
  · rcases ht : (s.listenAndEndpoint w).2.1.tlsConf with _ | c
    · exact hb
    · exact hb

/-! ### Claim theorems -/

/-- The HTTP3-mode server with nil TLS and no explicit listener used by the
C2 analysis. -/
def sH3NoTLS : Server := newServer [.enableHTTP3, .address ":443"]

/-- An HTTP3-mode server with nil TLS but an explicitly supplied QUIC
listener, for which endpoint resolution succeeds without binding. -/
def sH3Lis : Server :=
  newServer [.enableHTTP3, .http3Listener { addr := { host := "127.0.0.1", port := 4433 } }]

/-- A TCP-mode server with an explicitly supplied listener. -/
def sTcpLis : Server :=
  newServer [.listener { addr := { host := "127.0.0.1", port := 8000 } }]

/-- C1: the claim says that in connection-oriented mode a resolved endpoint's
host:port derives from the TCP listener's actual bound address. The code
passes `s.http3Lis` — nil in TCP mode — to `handleEndpoint` (http3.go:433),
so `host.Extract` never sees the bound listener and the configured
(wildcard/ephemeral) port is kept. Evaluated at the failing input: a
default server (TCP, address ":0") whose bind succeeds at 127.0.0.1:45678
resolves the endpoint to http://192.168.1.1:0 — the configured port 0, not
the bound port 45678. -/
theorem C1_tcp_endpoint_ignores_bound_address :
    (Server.Endpoint (newServer []) wTcpOK).1 =
      .ok (some { scheme := "http", host := "192.168.1.1:0" }) ∧
    (Server.Endpoint (newServer []) wTcpOK).2.1.lis =
      some { addr := { host := "127.0.0.1", port := 45678 } } ∧
    ({ scheme := "http", host := "192.168.1.1:0" } : URL) ≠
      { scheme := "http", host := "192.168.1.1:45678" } :=
  ⟨rfl, rfl, by decide⟩

/-- C2, counterexample: an HTTP3-mode server with nil TLS and no explicit
listener, whose QUIC bind fails (address in use): `Start` returns the bind
error — a network fault — not the TLS-required configuration error the claim
promises for every nil-TLS alternate-transport server. -/
theorem C2_counterexample :
    sH3NoTLS.tlsConf = none ∧ sH3NoTLS.enableHttp3 = true ∧
    (Server.Start sH3NoTLS wQuicBindFail (.msg "unreached")).ret =
      some (.msg "listen udp :443: address already in use") ∧
    GoError.msg "listen udp :443: address already in use" ≠ tlsRequiredError :=
  ⟨rfl, rfl, rfl, by decide⟩

/-- C2 (amended): for every HTTP3-mode server with nil TLS configuration,
`Start` never reaches a serve call; and whenever listener/endpoint
resolution succeeds (for instance because an explicit listener was
supplied), the returned error is exactly the TLS-required
configuration-precondition error. When the bind itself fails, that bind
error is returned first instead. -/
theorem C2_start_http3_requires_tls (s : Server) (w : World) (e : GoError)
    (hm : s.enableHttp3 = true) (htls : s.tlsConf = none) :
    (Server.Start s w e).served = ServeCall.notCalled ∧
    ((s.listenAndEndpoint w).1 = .ok () →
      (Server.Start s w e).ret = some tlsRequiredError) := by
  have ht : (s.listenAndEndpoint w).2.1.tlsConf = none :=
    (coreState_tlsConf (listenAndEndpoint_core s w)).trans htls
  unfold Server.Start
  rw [if_pos hm]
  unfold startHTTP3
  rcases hr : (s.listenAndEndpoint w).1 with e1 | u1
  · constructor
    · exact (startFinish_served _).1
    · intro hok
      exact absurd hok (by simp)
  · cases u1
    rw [ht]
    constructor
    · exact (startFinish_props tlsRequiredError _ _ _).2.2
    · intro _
      exact (startFinish_props tlsRequiredError _ _ _).2.1 (by decide)

/-- C2, witness: nil-TLS HTTP3 server with an explicit QUIC listener —
resolution succeeds, no serve call is reached, and `Start` returns the
TLS-required error. -/
theorem C2_witness :
    sH3Lis.enableHttp3 = true ∧ sH3Lis.tlsConf = none ∧
    (sH3Lis.listenAndEndpoint wQuicBindFail).1 = .ok () ∧
    (Server.Start sH3Lis wQuicBindFail (.msg "unreached")).served =
      ServeCall.notCalled ∧
    (Server.Start sH3Lis wQuicBindFail (.msg "unreached")).ret =
      some tlsRequiredError :=
  ⟨rfl, rfl, rfl,
    (C2_start_http3_requires_tls sH3Lis wQuicBindFail (.msg "unreached") rfl rfl).1,
    (C2_start_http3_requires_tls sH3Lis wQuicBindFail (.msg "unreached") rfl rfl).2 rfl⟩

/-- C3, counterexample: the first bind fails with "attempt1"; the claim says
every later `Endpoint` call returns that same failure without re-attempting
to bind. In fact the second call re-invokes `net.Listen` (the call counter
reaches 2) and returns the retry's distinct error "attempt2". -/
theorem C3_counterexample :
    (Server.Endpoint (newServer []) wTcpFailTwice).1 = .error (.msg "attempt1") ∧
    (Server.Endpoint (Server.Endpoint (newServer []) wTcpFailTwice).2.1
        (Server.Endpoint (newServer []) wTcpFailTwice).2.2).1 =
      .error (.msg "attempt2") ∧
    GoError.msg "attempt2" ≠ GoError.msg "attempt1" ∧
    (Server.Endpoint (Server.Endpoint (newServer []) wTcpFailTwice).2.1
        (Server.Endpoint (newServer []) wTcpFailTwice).2.2).2.2.tcpCalls = 2 :=
  ⟨rfl, rfl, by decide, rfl⟩

/-- C3 (amended): a failing first TCP bind is cached in the server's `err`
field and returned, and the listener stays absent — but a subsequent
`Endpoint` call does re-attempt the bind: the listen-call counter advances
again (so the retry's outcome, not only the cached failure, determines the
second result). -/
theorem C3_bindfail_cached_but_rebinds (s : Server) (w : World) (e : GoError)
    (hm : s.enableHttp3 = false) (hl : s.lis = none)
    (hfail : w.net.tcpListen w.tcpCalls s.network s.address = .error e) :
    (Server.Endpoint s w).1 = .error e ∧
    (Server.Endpoint s w).2.1.err = some e ∧
    (Server.Endpoint s w).2.1.lis = none ∧
    (Server.Endpoint s w).2.2.tcpCalls = w.tcpCalls + 1 ∧
    (Server.Endpoint (Server.Endpoint s w).2.1 (Server.Endpoint s w).2.2).2.2.tcpCalls =
      w.tcpCalls + 2 := by
  have hbf := listenAndEndpoint_tcp_bindfail s w e hm hl hfail
  rw [Endpoint_eq_of_err hbf]
  refine ⟨rfl, rfl, hl, rfl, ?_⟩
  have h2 := listenAndEndpoint_tcp_rebinds { s with err := some e }
    { w with tcpCalls := w.tcpCalls + 1 } hm hl
  rw [(Endpoint_state _ _).2, h2]

/-- C3, witness: the amended statement at the concrete failing network. -/
theorem C3_witness :
    (newServer []).enableHttp3 = false ∧ (newServer []).lis = none ∧
    wTcpFailTwice.net.tcpListen wTcpFailTwice.tcpCalls (newServer []).network
      (newServer []).address = .error (.msg "attempt1") ∧
    (Server.Endpoint (newServer []) wTcpFailTwice).1 = .error (.msg "attempt1") ∧
    (Server.Endpoint (Server.Endpoint (newServer []) wTcpFailTwice).2.1
        (Server.Endpoint (newServer []) wTcpFailTwice).2.2).2.2.tcpCalls = 2 :=
  ⟨rfl, rfl, rfl,
    (C3_bindfail_cached_but_rebinds (newServer []) wTcpFailTwice (.msg "attempt1")
      rfl rfl rfl).1,
    (C3_bindfail_cached_but_rebinds (newServer []) wTcpFailTwice (.msg "attempt1")
      rfl rfl rfl).2.2.2.2⟩

/-- C4, counterexample: a request matching no registered route is dispatched
to the not-found handler (the process-global default mux) with NO Transport
Context injected — gorilla/mux builds the `Use` middleware chain only for a
fully matched route, so the kratos filter never runs on the not-found path,
contrary to the claim that the operation falls back to the raw request path.
The matched case meanwhile does yield the registered template. -/
theorem C4_counterexample :
    (sIndex.handleRequest { method := "GET", path := "/other" }).transportInjected =
      false ∧
    (sIndex.handleRequest { method := "GET", path := "/other" }).handler =
      HandlerRef.defaultServeMux ∧
    (sIndex.handleRequest { method := "GET", path := "/index/42" }).operation =
      some "/index/{id}" :=
  ⟨rfl, rfl, rfl⟩

/-- C4 (amended): on any server whose router carries the kratos filter
middleware (as every `NewServer` result does), a request with a fully
matching route gets a Transport Context whose operation is the route's
registered path template (empty when the route has no resolvable template,
since the `GetPathTemplate` error is discarded); a request matching no route
is dispatched without any Transport Context injection. -/
theorem C4_operation_is_template (s : Server) (req : Request)
    (hf : s.router.useFilter = true) :
    (∀ rt, findFull s.router.routes req.method req.path = some rt →
      (s.handleRequest req).transportInjected = true ∧
      (s.handleRequest req).operation = some (rt.pathTemplate.getD "")) ∧
    (findFull s.router.routes req.method req.path = none →
      (s.handleRequest req).transportInjected = false ∧
      (s.handleRequest req).operation = none) := by
  constructor
  · intro rt hrt
    have hd : s.router.dispatch req.method req.path =
        { handler := rt.handler, filterApplied := s.router.useFilter,
          currentRoute := some rt } := by
      unfold MuxRouter.dispatch
      rw [hrt]
    unfold Server.handleRequest
    rw [hd, hf]
    exact ⟨rfl, rfl⟩
  · intro hnone
    have hd : (s.router.dispatch req.method req.path).filterApplied = false := by
      unfold MuxRouter.dispatch
      rw [hnone]
      show (if anyMethodMismatch s.router.routes req.method req.path = true then
              (match s.router.methodNotAllowedHandler with
               | some h =>
                 ({ handler := h, filterApplied := false,
                    currentRoute := none } : DispatchResult)
               | none =>
                 ({ handler := .builtinMethodNotAllowed, filterApplied := false,
                    currentRoute := none } : DispatchResult))
            else
              (match s.router.notFoundHandler with
               | some h =>
                 ({ handler := h, filterApplied := false,
                    currentRoute := none } : DispatchResult)
               | none =>
                 ({ handler := .builtinNotFound, filterApplied := false,
                    currentRoute := none } : DispatchResult))).filterApplied = false
      by_cases ha : anyMethodMismatch s.router.routes req.method req.path = true
      · rw [if_pos ha]
        cases s.router.methodNotAllowedHandler <;> rfl
      · rw [if_neg ha]
        cases s.router.notFoundHandler <;> rfl
    unfold Server.handleRequest
    rw [hd]
    exact ⟨rfl, rfl⟩

/-- C4, witness: the amended statement evaluated on the `/index/42` request
against the `/index/{id}` route. -/
theorem C4_witness :
    sIndex.router.useFilter = true ∧
    findFull sIndex.router.routes "GET" "/index/42" = some rIndex ∧
    (sIndex.handleRequest { method := "GET", path := "/index/42" }).transportInjected =
      true ∧
    (sIndex.handleRequest { method := "GET", path := "/index/42" }).operation =
      some (rIndex.pathTemplate.getD "") :=
  ⟨rfl, rfl,
    ((C4_operation_is_template sIndex { method := "GET", path := "/index/42" } rfl).1
      rIndex rfl).1,
    ((C4_operation_is_template sIndex { method := "GET", path := "/index/42" } rfl).1
      rIndex rfl).2⟩

/-- C5, counterexample: the claim says an unset (never configured) timeout
yields a cancellable-but-undeadlined context. `NewServer`'s default timeout
is 1 second, so a server whose timeout option was never supplied derives a
deadline-bound context, not a with-cancel one. -/
theorem C5_counterexample :
    (newServer []).timeout = 1000000000 ∧
    ((newServer []).filterRun { method := "GET", path := "/x" } none).ctx =
      CtxKind.withTimeout 1000000000 ∧
    CtxKind.withTimeout 1000000000 ≠ CtxKind.withCancel :=
  ⟨rfl, rfl, by decide⟩

/-- C5 (amended): for every server and request, the filter derives a
with-deadline context equal to the configured timeout when it is positive
and a cancellable undeadlined context otherwise, and the cancellation
function is invoked on every exit path of the wrapper; a timeout that was
never configured is the 1-second default, hence deadlined. -/
theorem C5_filter_context_rule (s : Server) (req : Request) (cr : Option Route) :
    (s.filterRun req cr).ctx =
      (if 0 < s.timeout then CtxKind.withTimeout s.timeout else CtxKind.withCancel) ∧
    (s.filterRun req cr).cancelInvoked = true ∧
    (newServer []).timeout = 1000000000 :=
  ⟨rfl, rfl, rfl⟩

/-- C6, counterexample: with an explicit endpoint override `http://example.com:80`
and a non-nil TLS configuration, the bind succeeds yet the returned scheme is
`http`, so "scheme is https iff TLS configured" fails as claimed for every
successful bind. -/
theorem C6_counterexample :
    (Server.Endpoint (newServer [.endpointOpt { scheme := "http", host := "example.com:80" },
        .tlsConfig (some { id := 0 })]) wTcpOK).1 =
      .ok (some { scheme := "http", host := "example.com:80" }) ∧
    (newServer [.endpointOpt { scheme := "http", host := "example.com:80" },
        .tlsConfig (some { id := 0 })]).tlsConf.isSome = true ∧
    (Server.Endpoint (newServer [.endpointOpt { scheme := "http", host := "example.com:80" },
        .tlsConfig (some { id := 0 })]) wTcpOK).2.1.lis =
      some { addr := { host := "127.0.0.1", port := 45678 } } ∧
    "http" ≠ "https" :=
  ⟨rfl, rfl, rfl, by decide⟩

/-- C6 (amended): for every server with no explicit endpoint override whose
first `Endpoint` call succeeds, a second call returns the identical URL with
identical final state — no rebinding — and the URL's scheme is `https` iff
the TLS configuration is non-nil. -/
theorem C6_endpoint_idempotent (s : Server) (w : World) (u : URL)
    (s1 : Server) (w1 : World) (hov : s.endpoint = none)
    (h1 : Server.Endpoint s w = (.ok (some u), s1, w1)) :
    Server.Endpoint s1 w1 = (.ok (some u), s1, w1) ∧
    (u.scheme = "https" ↔ s.tlsConf.isSome = true) := by
  rcases hle : s.listenAndEndpoint w with ⟨r, s2, w2⟩
  cases r with
  | error e =>
    rw [Endpoint_eq_of_err hle] at h1
    exact absurd (congrArg (fun t => t.1) h1) (by simp)
  | ok v =>
    cases v
    rw [Endpoint_eq_of_ok hle] at h1
    simp only [Prod.mk.injEq, Except.ok.injEq] at h1
    obtain ⟨hep, hs2, hw2⟩ := h1
    subst hs2
    subst hw2
    obtain ⟨he1, hcore, hh3, htcp, hsome, hnone⟩ := listenAndEndpoint_ok hle
    have hmode := coreState_enableHttp3 hcore
    have hstable := listenAndEndpoint_stable s2 w2 u hep he1
      (fun hmm => hh3 (hmode.symm.trans hmm))
      (fun hmm => htcp (hmode.symm.trans hmm))
    constructor
    · rw [Endpoint_eq_of_ok hstable, hep]
    · obtain ⟨hp, hhp⟩ := hnone hov
      have hu : u = newEndpoint (endpointScheme "http" s.tlsConf.isSome) hp := by
        have := hep.symm.trans hhp
        injection this
      rw [hu]
      rcases hts : s.tlsConf with _ | c <;> simp [newEndpoint, endpointScheme]

/-- C6, witness: the amended statement at a default server bound at
127.0.0.1:45678 — the second call returns the same URL and state, and the
scheme is `http` since TLS is nil. -/
theorem C6_witness :
    (newServer []).endpoint = none ∧
    Server.Endpoint (Server.Endpoint (newServer []) wTcpOK).2.1
        (Server.Endpoint (newServer []) wTcpOK).2.2 =
      (.ok (some { scheme := "http", host := "192.168.1.1:0" }),
        (Server.Endpoint (newServer []) wTcpOK).2.1,
        (Server.Endpoint (newServer []) wTcpOK).2.2) ∧
    (URL.scheme { scheme := "http", host := "192.168.1.1:0" } = "https" ↔
      (newServer []).tlsConf.isSome = true) :=
  ⟨rfl,
    (C6_endpoint_idempotent (newServer []) wTcpOK
      { scheme := "http", host := "192.168.1.1:0" } _ _ rfl rfl).1,
    (C6_endpoint_idempotent (newServer []) wTcpOK
      { scheme := "http", host := "192.168.1.1:0" } _ _ rfl rfl).2⟩

/-- C7: whenever listener/endpoint resolution succeeds (and, in HTTP3 mode,
TLS is present so the serve call is reached), `Start` returns nil exactly
when the blocking serve call's result satisfies `errors.Is(err,
http.ErrServerClosed)`, returns any other serve error unchanged, and in
those runs a serve call was indeed reached. -/
theorem C7_start_translates_shutdown (s : Server) (w : World) (e : GoError)
    (hok : (s.listenAndEndpoint w).1 = .ok ())
    (htls : s.enableHttp3 = true → s.tlsConf.isSome = true) :
    ((Server.Start s w e).ret = none ↔ e.is .errServerClosed = true) ∧
    (e.is .errServerClosed = false → (Server.Start s w e).ret = some e) ∧
    (Server.Start s w e).served ≠ ServeCall.notCalled := by
  have htl : (s.listenAndEndpoint w).2.1.tlsConf = s.tlsConf :=
    coreState_tlsConf (listenAndEndpoint_core s w)
  unfold Server.Start
  by_cases hm : s.enableHttp3 = true
  · rw [if_pos hm]
    unfold startHTTP3
    rcases hr : (s.listenAndEndpoint w).1 with e1 | u1
    · exact absurd hr (by simp [hok]) 
    · cases u1
      obtain ⟨c, hc⟩ := Option.isSome_iff_exists.mp (htls hm)
      rw [htl.trans hc]
      have hp := startFinish_props e (s.listenAndEndpoint w).2.1
        (s.listenAndEndpoint w).2.2 .serveListener
      refine ⟨hp.1, hp.2.1, ?_⟩
      rw [hp.2.2]
      decide
  · rw [if_neg hm]
    unfold startHTTP
    rcases hr : (s.listenAndEndpoint w).1 with e1 | u1
    · exact absurd hr (by simp [hok])
    · cases u1
      by_cases hts : (s.listenAndEndpoint w).2.1.tlsConf.isSome = true
      · rw [if_pos hts]
        have hp := startFinish_props e (s.listenAndEndpoint w).2.1
          (s.listenAndEndpoint w).2.2 .serveTLS
        refine ⟨hp.1, hp.2.1, ?_⟩
        rw [hp.2.2]
        decide
      · rw [if_neg hts]
        have hp := startFinish_props e (s.listenAndEndpoint w).2.1
          (s.listenAndEndpoint w).2.2 .servePlain
        refine ⟨hp.1, hp.2.1, ?_⟩
        rw [hp.2.2]
        decide

/-- C7, witness: TCP server with an explicit listener; a serve result of
`http.ErrServerClosed` makes `Start` return nil, and a distinct fault is
returned unchanged. -/
theorem C7_witness :
    (sTcpLis.listenAndEndpoint wTcpOK).1 = .ok () ∧
    (Server.Start sTcpLis wTcpOK .errServerClosed).ret = none ∧
    (Server.Start sTcpLis wTcpOK (.msg "broken pipe")).ret =
      some (.msg "broken pipe") :=
  ⟨rfl,
    (C7_start_translates_shutdown sTcpLis wTcpOK .errServerClosed rfl
      (fun hmm => absurd hmm (by decide))).1.mpr (by decide),
    (C7_start_translates_shutdown sTcpLis wTcpOK (.msg "broken pipe") rfl
      (fun hmm => absurd hmm (by decide))).2.1 (by decide)⟩

/-- A route registered with no methods (its `GetMethods` fails). -/
def rNoMethods : Route :=
  { pathTemplate := some "/nm", methods := none,
    matchPath := fun _ => false, handler := .user 2 }

/-- A route registered for GET and POST on `/a`. -/
def rAB : Route :=
  { pathTemplate := some "/a", methods := some ["GET", "POST"],
    matchPath := fun _ => false, handler := .user 3 }

/-- A server carrying a methodless route followed by a two-method route. -/
def sWalk : Server := ((newServer []).Handle rNoMethods).Handle rAB

/-- A walk callback that fails on POST entries. -/
def fnWalk : RouteInfo → Except GoError Unit :=
  fun i => if i.method == "POST" then .error (.msg "boom") else .ok ()

/-- C8: `WalkRoute` equals the reference walk semantics: visit the (method,
path template) pairs of the routes whose methods resolve, in order, running
the callback on each and aborting with the first callback error returned
unchanged; routes whose methods cannot be resolved contribute no pairs and
no error. (Hypothesis: every route with resolvable methods has a resolvable
template — otherwise `WalkRoute` surfaces mux's template error, which the
claim does not cover.) -/
theorem C8_walkroute_reference (s : Server) (fn : RouteInfo → Except GoError Unit)
    (h : ∀ rt ∈ s.router.routes, rt.methods.isSome = true →
      rt.pathTemplate.isSome = true) :
    s.WalkRoute fn = runCallbacks fn (routePairs s.router.routes) :=
  walkRoutes_eq fn s.router.routes h

/-- C8, witness: on the concrete server the walk skips the methodless route,
visits GET then POST of `/a`, and aborts with the POST callback's error. -/
theorem C8_witness :
    (∀ rt ∈ sWalk.router.routes, rt.methods.isSome = true →
      rt.pathTemplate.isSome = true) ∧
    sWalk.WalkRoute fnWalk = runCallbacks fnWalk (routePairs sWalk.router.routes) ∧
    sWalk.WalkRoute fnWalk = .error (.msg "boom") ∧
    routePairs sWalk.router.routes =
      [{ method := "GET", path := "/a" }, { method := "POST", path := "/a" }] := by
  have hh : ∀ rt ∈ sWalk.router.routes, rt.methods.isSome = true →
      rt.pathTemplate.isSome = true := by
    intro rt hrt
    have hor : rt = rNoMethods ∨ rt = rAB := by
      simpa [sWalk, Server.Handle, newServer, buildBackend, withRouterConfigured,
        defaultServer] using hrt
    rcases hor with rfl | rfl <;> (intro hm; rfl)
  exact ⟨hh, C8_walkroute_reference sWalk fnWalk hh, rfl, rfl⟩

/-- C9: `NewServer` makes exactly one backend non-nil — the QUIC one iff the
enable-HTTP3 flag was set by the options — and no lifecycle or registration
operation (`Start`, `Stop`, `Endpoint`, `Handle`; `ServeHTTP` is a pure
read) ever changes the mode flag or either backend field. -/
theorem C9_single_backend_invariant :
    (∀ opts : List ServerOption,
      (newServer opts).http3srv.isSome = (newServer opts).enableHttp3 ∧
      (newServer opts).httpsrv.isSome = !(newServer opts).enableHttp3) ∧
    (∀ (s : Server) (w : World) (e : GoError),
      backendState (Server.Start s w e).srv = backendState s) ∧
    (∀ (s : Server) (c d : Option GoError),
      backendState (Server.Stop s c d).2 = backendState s) ∧
    (∀ (s : Server) (w : World),
      backendState (Server.Endpoint s w).2.1 = backendState s) ∧
    (∀ (s : Server) (rt : Route), backendState (s.Handle rt) = backendState s) := by
  refine ⟨?_, ?_, ?_, ?_, ?_⟩
  · intro opts
    have hfold := foldl_applyOption_backends opts defaultServer
    have hhs : (withRouterConfigured (opts.foldl applyOption defaultServer)).httpsrv =
        none := hfold.1
    have hh3 : (withRouterConfigured (opts.foldl applyOption defaultServer)).http3srv =
        none := hfold.2
    unfold newServer buildBackend
    by_cases hc : (withRouterConfigured (opts.foldl applyOption defaultServer)).enableHttp3 = true
    · rw [if_pos hc]
      constructor
      · simp [hc]
      · simp [hhs, hc]
    · have hcf : (withRouterConfigured (opts.foldl applyOption defaultServer)).enableHttp3 =
          false := by simpa using hc
      rw [if_neg hc]
      constructor
      · simp [hh3, hcf]
      · simp [hcf]
  · intro s w e
    unfold Server.Start
    rw [(startFinish_served _).2.1]
    by_cases hm : s.enableHttp3 = true
    · rw [if_pos hm]
      exact startHTTP3_backends s w e
    · rw [if_neg hm]
      exact startHTTP_backends s w e
  · intro s c d
    unfold Server.Stop
    split <;> rfl
  · intro s w
    rw [(Endpoint_state s w).1]
    exact backendState_of_core (listenAndEndpoint_core s w)
  · intro s rt
    rfl

/-- C10: `NewServer` sets both the router's not-found handler and its
method-not-allowed handler to the process-global `http.DefaultServeMux`,
whatever options and route registrations follow; consequently any request
matching no registered route (including a path match with a method
mismatch) is dispatched to the default mux. -/
theorem C10_default_mux_fallback (opts : List ServerOption) (rts : List Route)
    (m p : String) :
    (rts.foldl Server.Handle (newServer opts)).router.notFoundHandler =
      some HandlerRef.defaultServeMux ∧
    (rts.foldl Server.Handle (newServer opts)).router.methodNotAllowedHandler =
      some HandlerRef.defaultServeMux ∧
    (findFull (rts.foldl Server.Handle (newServer opts)).router.routes m p = none →
      ((rts.foldl Server.Handle (newServer opts)).router.dispatch m p).handler =
        HandlerRef.defaultServeMux) := by
  have hf := foldl_Handle_preserves rts (newServer opts)
  have hn := newServer_router_config opts
  have h1 := hf.1.trans hn.1
  have h2 := hf.2.1.trans hn.2.1
  refine ⟨h1, h2, ?_⟩
  intro hnone
  unfold MuxRouter.dispatch
  rw [hnone]
  show (if anyMethodMismatch (rts.foldl Server.Handle (newServer opts)).router.routes
          m p = true then
          (match (rts.foldl Server.Handle (newServer opts)).router.methodNotAllowedHandler with
           | some h =>
             ({ handler := h, filterApplied := false, currentRoute := none } : DispatchResult)
           | none =>
             ({ handler := .builtinMethodNotAllowed, filterApplied := false,
                currentRoute := none } : DispatchResult))
        else
          (match (rts.foldl Server.Handle (newServer opts)).router.notFoundHandler with
           | some h =>
             ({ handler := h, filterApplied := false, currentRoute := none } : DispatchResult)
           | none =>
             ({ handler := .builtinNotFound, filterApplied := false,
                currentRoute := none } : DispatchResult))).handler =
      HandlerRef.defaultServeMux
  by_cases ha : anyMethodMismatch (rts.foldl Server.Handle (newServer opts)).router.routes
      m p = true
  · rw [if_pos ha, h2]
  · rw [if_neg ha, h1]

/-- C10, witness: an unmatched request on a fresh server is dispatched to the
default mux. -/
theorem C10_witness :
    findFull (newServer []).router.routes "GET" "/nope" = none ∧
    ((newServer []).router.dispatch "GET" "/nope").handler =
      HandlerRef.defaultServeMux :=
  ⟨rfl, (C10_default_mux_fallback [] [] "GET" "/nope").2.2 rfl⟩

end Kratos
